import Mathlib

/-!
Shallow embedding of `src/clock_automation.py` (yogesh243000/clock-automation).

The program drives a headless browser: `setup_driver` tries three driver
acquisition strategies in order, `login` submits credentials and checks the
post-submission URL, and `perform_clock_operation` probes an ordered list of
CSS-selector candidates and clicks the first visible clickable match, always
releasing the driver in a `finally` block.  `main` is the argparse
command-line entry point.

The environment (browser, network, filesystem) is modelled by an oracle
`World` fixing the outcome of every external call a run can make.  Each
embedded function returns the Python result together with the ordered list of
external actions (`Event`s) it performed.  Python exceptions are all caught
inside the functions themselves, exactly as in the source, so the embeddings
are total; the one place an exception can escape — the unguarded
`driver.quit()` in `main`'s dry-run branch — is reflected in `MainResult`.
Fixed-duration `time.sleep` calls and log statements have no observable
effect and are not modelled.
-/

namespace ClockAutomationModel

/-- The three driver acquisition strategies of `setup_driver`, in source
order: webdriver-manager, the manual version-detect-and-download path, and
the fixed system path `/usr/local/bin/chromedriver`. -/
inductive Strategy where
  | wdm
  | manual
  | system
  deriving DecidableEq, Repr

/-- External actions a run can perform, in the order they are issued. -/
inductive Event where
  /-- A driver acquisition strategy starts (tries to produce a browser). -/
  | setupAttempt (s : Strategy)
  /-- The `subprocess.run` call querying the installed Chrome version. -/
  | versionQuery
  /-- The HTTP GET of the driver archive (`requests.get(driver_url)`). -/
  | download (url : String)
  /-- `driver.get(url)`. -/
  | navigate (url : String)
  /-- `driver.save_screenshot(name)` was called (whether or not it raised). -/
  | saveShot (name : String)
  /-- `clear()` + `send_keys` on the username field. -/
  | enterUsername
  /-- `clear()` + `send_keys` on the password field. -/
  | enterPassword
  /-- The login submit button click. -/
  | clickSubmit
  /-- `WebDriverWait(...).until(EC.presence_of_element_located(...))`. -/
  | waitPresence (eltId : String)
  /-- `WebDriverWait(...).until(EC.element_to_be_clickable(sel))` for one
  CSS-selector candidate. -/
  | waitClickable (sel : String)
  /-- `clock_btn.click()` on the element matched by `sel`. -/
  | clickButton (sel : String)
  /-- `driver.quit()` was called. -/
  | quitDriver
  deriving DecidableEq, Repr

/-- Outcome of probing one CSS selector in the clock-button loop: the bounded
clickability wait either raises (timeout or other WebDriver error), or yields
an element whose `is_displayed()` answer and whether its `click()` raises are
fixed by the oracle. -/
inductive SelectorOutcome where
  | waitRaises
  | found (displayed : Bool) (clickRaises : Bool)
  deriving DecidableEq, Repr

/-- Oracle fixing the outcome of every external call one run can make. -/
structure World where
  /-- `os.getenv('CLOCK_USERNAME')` (`none` when the variable is unset). -/
  envUsername : Option String
  /-- `os.getenv('CLOCK_PASSWORD')`. -/
  envPassword : Option String
  /-- Strategy 1 succeeds: `ChromeDriverManager().install()` and the
  subsequent `webdriver.Chrome` start both work. -/
  wdmOk : Bool
  /-- Result of parsing the Chrome `--version` subprocess output; `none`
  means the call or the parse raised (bare `except`), which triggers the
  hardcoded fallback version string. -/
  versionDetect : Option String
  /-- `requests.get`, writing the archive and `zipfile` extraction succeed. -/
  downloadOk : Bool
  /-- The `os.walk` scan finds an existing `chromedriver` executable. -/
  driverFound : Bool
  /-- `webdriver.Chrome` on the downloaded driver starts. -/
  manualStartOk : Bool
  /-- Strategy 3 succeeds: `webdriver.Chrome` on `/usr/local/bin/chromedriver`. -/
  systemOk : Bool
  /-- `driver.get(login_url)` succeeds. -/
  getOk : Bool
  /-- The bounded presence wait for the `Username` field succeeds. -/
  waitUsernameOk : Bool
  /-- `find_element(By.ID, "Password")` succeeds. -/
  findPasswordOk : Bool
  /-- `find_element(By.CSS_SELECTOR, "[type='submit']")` succeeds. -/
  findSubmitOk : Bool
  /-- `clear()` + `send_keys` on the username field succeed. -/
  usernameEntryOk : Bool
  /-- `clear()` + `send_keys` on the password field succeed. -/
  passwordEntryOk : Bool
  /-- `login_btn.click()` succeeds. -/
  clickSubmitOk : Bool
  /-- The value of `driver.current_url` read after submission. -/
  currentUrl : String
  /-- Outcome of the clickability probe, per CSS selector. -/
  selOutcome : String → SelectorOutcome
  /-- Whether `driver.save_screenshot(name)` raises, per file name. -/
  shotFails : String → Bool
  /-- Whether `driver.quit()` raises. -/
  quitRaises : Bool

/-- A live browser handle, tagged with the strategy that produced it. -/
structure Driver where
  strategy : Strategy
  deriving DecidableEq, Repr

/-- `ClockAutomation.__init__`: credentials from the environment with the
hardcoded defaults, plus the fixed login URL. -/
structure ClockAutomation where
  username : String
  password : String
  login_url : String
  deriving DecidableEq, Repr

/-- Builds the `ClockAutomation` instance from the process environment. -/
def ClockAutomation.init (w : World) : ClockAutomation :=
  { username := w.envUsername.getD "E00358@ocs"
    password := w.envPassword.getD "E00358@ocs"
    login_url := "https://clocklive.emplive.net/Account/LogOn" }

/-- The hardcoded fallback Chrome version used when version detection fails. -/
def fallbackVersion : String := "139.0.7258.139"

/-- The download URL of the manual strategy, keyed by the Chrome version and
the fixed `mac-arm64` architecture string. -/
def driverUrl (version : String) : String :=
  "https://storage.googleapis.com/chrome-for-testing-public/" ++ version ++
    "/mac-arm64/chromedriver-mac-arm64.zip"

/-- Whether the manual path (strategy 2) obtains a live driver: the download
and extraction succeed, the executable is found by the directory scan, and
the browser starts with it.  Any of these failing raises inside the outer
`try` (an explicit `raise` when the executable is missing), reaching the
handler that runs strategy 3. -/
def manualOk (w : World) : Bool :=
  w.downloadOk && w.driverFound && w.manualStartOk

/-- `ClockAutomation.setup_driver`: try webdriver-manager; on exception fall
through to the manual download keyed by the detected (or fallback) Chrome
version; on exception of that whole block, try the system chromedriver; on
exception return `None`.  Building `chrome_options` is pure in-memory work
and cannot raise.  Every strategy failure is caught — the function never
propagates an exception. -/
def setup_driver (w : World) : Option Driver × List Event :=
  if w.wdmOk then
    (some ⟨Strategy.wdm⟩, [Event.setupAttempt Strategy.wdm])
  else
    let version := w.versionDetect.getD fallbackVersion
    let tr := [Event.setupAttempt Strategy.wdm, Event.setupAttempt Strategy.manual,
      Event.versionQuery, Event.download (driverUrl version)]
    if manualOk w then
      (some ⟨Strategy.manual⟩, tr)
    else
      if w.systemOk then
        (some ⟨Strategy.system⟩, tr ++ [Event.setupAttempt Strategy.system])
      else
        (none, tr ++ [Event.setupAttempt Strategy.system])

/-- Python's `str.lower()`: character-wise lowercasing. -/
def pyLower (s : String) : String := String.mk (s.data.map Char.toLower)

/-- Occurrence of `pat` as a contiguous sublist of `s`. -/
def listInfix (pat s : List Char) : Bool :=
  match s with
  | [] => pat.isEmpty
  | _ :: rest => pat.isPrefixOf s || listInfix pat rest

/-- The substring test (Python `pat in s`), over the character lists. -/
def strContains (s pat : String) : Bool := listInfix pat.data s.data

/-- The login-success check of `login`: the post-submission URL still
contains `"login"` or `"logon"`, case-insensitively. -/
def urlMarker (url : String) : Bool :=
  strContains (pyLower url) "login" || strContains (pyLower url) "logon"

/-- `ClockAutomation.login`: navigate to the login URL, screenshot, locate
the username/password fields and the submit control, enter credentials,
click submit, screenshot again, then succeed exactly when the current URL no
longer contains a login-page marker.  Any exception in the sequence is
caught: a best-effort `login_error.png` screenshot is attempted (itself
guarded by `except: pass`) and `False` is returned. -/
def login (w : World) (auto : ClockAutomation) : Bool × List Event :=
  -- each failing branch ends with the guarded best-effort `login_error.png`
  -- screenshot of the exception handler
  if !w.getOk then
    (false, [Event.navigate auto.login_url, Event.saveShot "login_error.png"])
  else if w.shotFails "login_page.png" then
    (false, [Event.navigate auto.login_url, Event.saveShot "login_page.png",
      Event.saveShot "login_error.png"])
  else if !w.waitUsernameOk then
    (false, [Event.navigate auto.login_url, Event.saveShot "login_page.png",
      Event.waitPresence "Username", Event.saveShot "login_error.png"])
  else if !w.findPasswordOk then
    (false, [Event.navigate auto.login_url, Event.saveShot "login_page.png",
      Event.waitPresence "Username", Event.saveShot "login_error.png"])
  else if !w.findSubmitOk then
    (false, [Event.navigate auto.login_url, Event.saveShot "login_page.png",
      Event.waitPresence "Username", Event.saveShot "login_error.png"])
  else if !w.usernameEntryOk then
    (false, [Event.navigate auto.login_url, Event.saveShot "login_page.png",
      Event.waitPresence "Username", Event.enterUsername,
      Event.saveShot "login_error.png"])
  else if !w.passwordEntryOk then
    (false, [Event.navigate auto.login_url, Event.saveShot "login_page.png",
      Event.waitPresence "Username", Event.enterUsername, Event.enterPassword,
      Event.saveShot "login_error.png"])
  else if !w.clickSubmitOk then
    (false, [Event.navigate auto.login_url, Event.saveShot "login_page.png",
      Event.waitPresence "Username", Event.enterUsername, Event.enterPassword,
      Event.clickSubmit, Event.saveShot "login_error.png"])
  else if w.shotFails "after_login.png" then
    (false, [Event.navigate auto.login_url, Event.saveShot "login_page.png",
      Event.waitPresence "Username", Event.enterUsername, Event.enterPassword,
      Event.clickSubmit, Event.saveShot "after_login.png",
      Event.saveShot "login_error.png"])
  -- the whole interaction sequence went through: success is decided by the
  -- login-page marker test on `driver.current_url`
  else if urlMarker w.currentUrl then
    (false, [Event.navigate auto.login_url, Event.saveShot "login_page.png",
      Event.waitPresence "Username", Event.enterUsername, Event.enterPassword,
      Event.clickSubmit, Event.saveShot "after_login.png"])
  else
    (true, [Event.navigate auto.login_url, Event.saveShot "login_page.png",
      Event.waitPresence "Username", Event.enterUsername, Event.enterPassword,
      Event.clickSubmit, Event.saveShot "after_login.png"])

/-- The ordered clock-in selector candidates of `perform_clock_operation`. -/
def selectors_in : List String :=
  ["input[value*=\x27Clock In\x27]",
   "input[value*=\x27clock in\x27]",
   "#clock-in-button",
   "#btnClockIn",
   "button[value*=\x27Clock In\x27]",
   "button[onclick*=\x27clockIn\x27]"]

/-- The ordered clock-out selector candidates of `perform_clock_operation`. -/
def selectors_out : List String :=
  ["input[value*=\x27Clock Out\x27]",
   "input[value*=\x27clock out\x27]",
   "#clock-out-button",
   "#btnClockOut",
   "button[value*=\x27Clock Out\x27]",
   "button[onclick*=\x27clockOut\x27]"]

/-- The selector list chosen by `perform_clock_operation`:
`operation_type.lower() == "in"` selects the clock-in list, everything else
the clock-out list.  There is no rejection of unknown operation types at
this interface. -/
def selectorsFor (operation_type : String) : List String :=
  if pyLower operation_type = "in" then selectors_in else selectors_out

/-- The `for selector in selectors` loop of `perform_clock_operation`: each
candidate gets a bounded clickability wait inside `try`; a raised wait or
click, or a non-displayed element, falls through (`continue`) to the next
candidate; the first displayed element whose click succeeds sets
`button_found` and `break`s the loop. -/
def trySelectors (w : World) : List String → Bool × List Event
  | [] => (false, [])
  | s :: rest =>
    match w.selOutcome s with
    | SelectorOutcome.waitRaises =>
      let r := trySelectors w rest
      (r.1, Event.waitClickable s :: r.2)
    | SelectorOutcome.found displayed clickRaises =>
      if displayed then
        if clickRaises then
          let r := trySelectors w rest
          (r.1, Event.waitClickable s :: Event.clickButton s :: r.2)
        else
          (true, [Event.waitClickable s, Event.clickButton s])
      else
        let r := trySelectors w rest
        (r.1, Event.waitClickable s :: r.2)

/-- The `try ... except ... finally` body of `perform_clock_operation`,
entered once a live driver exists (its trace excludes the setup events): run
`login`, probe the selector list, handle the button-not-found branch, and on
success take the final screenshot.  The only calls inside the `try` that can
still raise are the screenshots; the handler attempts a best-effort
`operation_error.png` (guarded by `except: pass`) and returns `False`.  The
`finally` appends its guarded `driver.quit()` (`except: pass`) on every
path. -/
def clockBody (w : World) (auto : ClockAutomation) (operation_type : String) :
    Bool × List Event :=
  let l := login w auto
  if !l.1 then (false, l.2 ++ [Event.quitDriver])
  else
    let b := trySelectors w (selectorsFor operation_type)
    let tr := l.2 ++ b.2
    if !b.1 then
      let tr2 := tr ++ [Event.saveShot "button_not_found.png"]
      if w.shotFails "button_not_found.png" then
        (false, tr2 ++ [Event.saveShot "operation_error.png", Event.quitDriver])
      else
        (false, tr2 ++ [Event.quitDriver])
    else
      let tr2 := tr ++ [Event.saveShot "after_operation.png"]
      if w.shotFails "after_operation.png" then
        (false, tr2 ++ [Event.saveShot "operation_error.png", Event.quitDriver])
      else
        (true, tr2 ++ [Event.quitDriver])

/-- `ClockAutomation.perform_clock_operation`: set up the driver (returning
`False` if no strategy produced one, with no `finally` since the `try` was
never entered), then run the guarded body. -/
def perform_clock_operation (w : World) (auto : ClockAutomation)
    (operation_type : String) : Bool × List Event :=
  match (setup_driver w).1 with
  | none => (false, (setup_driver w).2)
  | some _ =>
    let b := clockBody w auto operation_type
    (b.1, (setup_driver w).2 ++ b.2)

/-- How an invocation of `main` terminates, as observed by
`exit(main())`. -/
inductive MainResult where
  /-- argparse rejected the arguments: `SystemExit` before any action. -/
  | parseExit
  /-- An uncaught exception escaped `main`. -/
  | raised
  /-- Normal return value, which becomes the process exit status. -/
  | code (n : Nat)
  deriving DecidableEq, Repr

/-- The argparse `choices=['in', 'out']` validation of the positional
`operation` argument. -/
def validOperation (operation : String) : Bool :=
  operation = "in" || operation = "out"

/-- The `main` command-line entry point.  `parse_args()` exits on an invalid
choice before `ClockAutomation()` is built or any browser call is made.
`load_dotenv(args.env)` only mutates the process environment, which the
oracle's `envUsername`/`envPassword` fields already fix, so `envFile` has no
further observable effect.  In dry-run mode only `setup_driver` and `login`
run, the final `driver.quit()` is unguarded (a raise escapes `main`), and
the return value is `0` regardless of the setup and login outcomes. -/
def main (w : World) (operation envFile : String) (dryRun : Bool) :
    MainResult × List Event :=
  if !validOperation operation then (MainResult.parseExit, [])
  else
    let auto := ClockAutomation.init w
    if dryRun then
      match (setup_driver w).1 with
      | none => (MainResult.code 0, (setup_driver w).2)
      | some _ =>
        let l := login w auto
        if w.quitRaises then
          (MainResult.raised, (setup_driver w).2 ++ l.2 ++ [Event.quitDriver])
        else
          (MainResult.code 0, (setup_driver w).2 ++ l.2 ++ [Event.quitDriver])
    else
      let p := perform_clock_operation w auto operation
      (if p.1 then MainResult.code 0 else MainResult.code 1, p.2)

/-- Projects the strategy out of a `setupAttempt` event, for stating in
which order `setup_driver` tries its strategies. -/
def attemptedStrategy : Event → Option Strategy
  | Event.setupAttempt s => some s
  | _ => none

/-- A world in which everything goes right: webdriver-manager produces a
driver, every login step succeeds, the post-login URL has left the login
page, every selector probe finds a displayed clickable element, no
screenshot raises and `driver.quit()` does not raise. -/
def worldAllOk : World :=
  { envUsername := none
    envPassword := none
    wdmOk := true
    versionDetect := none
    downloadOk := false
    driverFound := false
    manualStartOk := false
    systemOk := false
    getOk := true
    waitUsernameOk := true
    findPasswordOk := true
    findSubmitOk := true
    usernameEntryOk := true
    passwordEntryOk := true
    clickSubmitOk := true
    currentUrl := "https://clocklive.emplive.net/Home"
    selOutcome := fun _ => SelectorOutcome.found true false
    shotFails := fun _ => false
    quitRaises := false }

/-- Like `worldAllOk`, but after submission the browser is still on the
login page (the URL contains the `logon` marker), so `login` fails. -/
def worldLoginPage : World :=
  { worldAllOk with currentUrl := "https://clocklive.emplive.net/Account/LogOn" }

/-- Like `worldAllOk`, but every selector probe times out: no clock button
is ever found. -/
def worldNoButton : World :=
  { worldAllOk with selOutcome := fun _ => SelectorOutcome.waitRaises }

/-- Like `worldAllOk`, but the first clock-in selector probe times out and
every later candidate yields a displayed clickable element. -/
def worldSecondSelector : World :=
  { worldAllOk with
    selOutcome := fun s =>
      if s = "input[value*=\x27Clock In\x27]" then SelectorOutcome.waitRaises
      else SelectorOutcome.found true false }

/-- Like `worldNoButton`, but the `button_not_found.png` screenshot itself
raises. -/
def worldShotCrash : World :=
  { worldNoButton with shotFails := fun n => n == "button_not_found.png" }

/-- A world in which all three driver acquisition strategies fail. -/
def worldNoDriver : World :=
  { worldAllOk with wdmOk := false }

/-! Helper lemmas about the traces of the individual stages. -/

theorem setup_no_wait (w : World) (s : String) :
    Event.waitClickable s ∉ (setup_driver w).2 := by
  cases h1 : w.wdmOk <;> cases h2 : manualOk w <;> cases h3 : w.systemOk <;>
    simp [setup_driver, h1, h2, h3]

theorem setup_no_click (w : World) (s : String) :
    Event.clickButton s ∉ (setup_driver w).2 := by
  cases h1 : w.wdmOk <;> cases h2 : manualOk w <;> cases h3 : w.systemOk <;>
    simp [setup_driver, h1, h2, h3]

theorem setup_no_quit (w : World) :
    Event.quitDriver ∉ (setup_driver w).2 := by
  cases h1 : w.wdmOk <;> cases h2 : manualOk w <;> cases h3 : w.systemOk <;>
    simp [setup_driver, h1, h2, h3]

set_option maxHeartbeats 2000000 in
theorem login_trace_events (w : World) (auto : ClockAutomation) (e : Event)
    (he : e ∈ (login w auto).2) :
    e = Event.navigate auto.login_url ∨ e = Event.saveShot "login_page.png" ∨
    e = Event.waitPresence "Username" ∨ e = Event.enterUsername ∨
    e = Event.enterPassword ∨ e = Event.clickSubmit ∨
    e = Event.saveShot "after_login.png" ∨ e = Event.saveShot "login_error.png" := by
  unfold login at he
  split_ifs at he
  all_goals simp at he
  all_goals tauto

theorem login_no_wait (w : World) (auto : ClockAutomation) (s : String) :
    Event.waitClickable s ∉ (login w auto).2 := by
  intro h
  rcases login_trace_events w auto _ h with h' | h' | h' | h' | h' | h' | h' | h' <;>
    simp at h'

theorem login_no_click (w : World) (auto : ClockAutomation) (s : String) :
    Event.clickButton s ∉ (login w auto).2 := by
  intro h
  rcases login_trace_events w auto _ h with h' | h' | h' | h' | h' | h' | h' | h' <;>
    simp at h'

theorem login_no_quit (w : World) (auto : ClockAutomation) :
    Event.quitDriver ∉ (login w auto).2 := by
  intro h
  rcases login_trace_events w auto _ h with h' | h' | h' | h' | h' | h' | h' | h' <;>
    simp at h'

theorem trySelectors_no_quit (w : World) (sels : List String) :
    Event.quitDriver ∉ (trySelectors w sels).2 := by
  induction sels with
  | nil => simp [trySelectors]
  | cons s rest ih =>
    unfold trySelectors
    cases h : w.selOutcome s with
    | waitRaises => simp [ih]
    | found displayed clickRaises =>
      cases displayed <;> cases clickRaises <;> simp [ih]

theorem trySelectors_all_waitRaises (w : World) (sels : List String)
    (h : ∀ s ∈ sels, w.selOutcome s = SelectorOutcome.waitRaises) :
    trySelectors w sels = (false, sels.map Event.waitClickable) := by
  induction sels with
  | nil => rfl
  | cons s rest ih =>
    have hs : w.selOutcome s = SelectorOutcome.waitRaises := h s (by simp)
    unfold trySelectors
    rw [hs, ih (fun x hx => h x (by simp [hx]))]
    simp

theorem trySelectors_first_success (w : World) (sels : List String) (n : Nat)
    (hn : n < sels.length)
    (hfail : ∀ i, i < n →
      w.selOutcome (sels.getD i "") = SelectorOutcome.waitRaises)
    (hsucc : w.selOutcome (sels.getD n "") = SelectorOutcome.found true false) :
    trySelectors w sels =
      (true, (sels.take n).map Event.waitClickable ++
        [Event.waitClickable (sels.getD n ""),
         Event.clickButton (sels.getD n "")]) := by
  induction sels generalizing n with
  | nil => simp at hn
  | cons s rest ih =>
    cases n with
    | zero =>
      have hs : w.selOutcome s = SelectorOutcome.found true false := by
        simpa using hsucc
      unfold trySelectors
      rw [hs]
      simp
    | succ m =>
      have hs : w.selOutcome s = SelectorOutcome.waitRaises := by
        simpa using hfail 0 (Nat.succ_pos m)
      have ihm := ih m (by simpa using hn)
        (fun i hi => by simpa using hfail (i + 1) (Nat.succ_lt_succ hi))
        (by simpa using hsucc)
      unfold trySelectors
      rw [hs, ihm]
      simp

theorem perform_eq_of_setup_some (w : World) (auto : ClockAutomation)
    (op : String) (d : Driver) (h : (setup_driver w).1 = some d) :
    perform_clock_operation w auto op =
      ((clockBody w auto op).1, (setup_driver w).2 ++ (clockBody w auto op).2) := by
  unfold perform_clock_operation
  rw [h]

theorem clockBody_of_login_false (w : World) (auto : ClockAutomation)
    (op : String) (hl : (login w auto).1 = false) :
    clockBody w auto op = (false, (login w auto).2 ++ [Event.quitDriver]) := by
  simp [clockBody, hl]

theorem clockBody_quit_count (w : World) (auto : ClockAutomation) (op : String) :
    ((clockBody w auto op).2).count Event.quitDriver = 1 := by
  have hl := List.count_eq_zero.mpr (login_no_quit w auto)
  have hb := List.count_eq_zero.mpr
    (trySelectors_no_quit w (selectorsFor op))
  cases hlog : (login w auto).1 <;>
    cases hbtn : (trySelectors w (selectorsFor op)).1 <;>
    cases hs1 : w.shotFails "button_not_found.png" <;>
    cases hs2 : w.shotFails "after_operation.png" <;>
    simp [clockBody, hlog, hbtn, hs1, hs2, List.count_append, List.count_cons,
      List.count_nil, hl, hb]

/-! None of the stages reads the `quitRaises` component of the oracle: the
`finally` block's bare `except` swallows a raising `driver.quit()`, so the
whole clock operation behaves identically whether or not the release
raises. -/

theorem setup_quitRaises_irrel (w : World) (b : Bool) :
    setup_driver { w with quitRaises := b } = setup_driver w := rfl

theorem login_quitRaises_irrel (w : World) (auto : ClockAutomation) (b : Bool) :
    login { w with quitRaises := b } auto = login w auto := rfl

theorem trySelectors_quitRaises_irrel (w : World) (b : Bool)
    (sels : List String) :
    trySelectors { w with quitRaises := b } sels = trySelectors w sels := by
  induction sels with
  | nil => rfl
  | cons s rest ih =>
    unfold trySelectors
    rw [ih]

theorem clockBody_quitRaises_irrel (w : World) (auto : ClockAutomation)
    (op : String) (b : Bool) :
    clockBody { w with quitRaises := b } auto op = clockBody w auto op := by
  unfold clockBody
  rw [trySelectors_quitRaises_irrel, login_quitRaises_irrel]

theorem perform_quitRaises_irrel (w : World) (auto : ClockAutomation)
    (op : String) (b : Bool) :
    perform_clock_operation { w with quitRaises := b } auto op =
      perform_clock_operation w auto op := by
  unfold perform_clock_operation
  rw [clockBody_quitRaises_irrel, setup_quitRaises_irrel]

/-! List helpers for reasoning about the selector candidate order. -/

theorem mem_take_getD (l : List String) (n : Nat) (a : String)
    (h : a ∈ l.take n) :
    ∃ j, j < n ∧ j < l.length ∧ l.getD j "" = a := by
  induction l generalizing n with
  | nil => simp at h
  | cons x xs ih =>
    cases n with
    | zero => simp at h
    | succ m =>
      simp only [List.take_succ_cons, List.mem_cons] at h
      rcases h with rfl | h
      · exact ⟨0, Nat.succ_pos m, Nat.succ_pos xs.length, rfl⟩
      · rcases ih m h with ⟨j, hj1, hj2, hj3⟩
        exact ⟨j + 1, Nat.succ_lt_succ hj1, Nat.succ_lt_succ hj2, by simpa using hj3⟩

theorem getD_inj_of_nodup (l : List String) (hl : l.Nodup) (i j : Nat)
    (hi : i < l.length) (hj : j < l.length)
    (h : l.getD i "" = l.getD j "") : i = j := by
  have hi' : l.getD i "" = l.get ⟨i, hi⟩ := by
    simp [List.getD_eq_getElem?_getD, List.getElem?_eq_getElem hi]
  have hj' : l.getD j "" = l.get ⟨j, hj⟩ := by
    simp [List.getD_eq_getElem?_getD, List.getElem?_eq_getElem hj]
  have := List.nodup_iff_injective_get.mp hl (hi' ▸ hj' ▸ h)
  exact congrArg Fin.val this

theorem selectorsFor_nodup (op : String) : (selectorsFor op).Nodup := by
  unfold selectorsFor
  split <;> decide

theorem count_click_in_waitMap (l : List String) (x : String) :
    (l.map Event.waitClickable).count (Event.clickButton x) = 0 :=
  List.count_eq_zero.mpr (by simp)

theorem click_not_in_opTail (c : Bool) (s : String) :
    Event.clickButton s ∉
      (if c then [Event.saveShot "operation_error.png", Event.quitDriver]
       else [Event.quitDriver]) := by
  cases c <;> simp

theorem wait_not_in_opTail (c : Bool) (s : String) :
    Event.waitClickable s ∉
      (if c then [Event.saveShot "operation_error.png", Event.quitDriver]
       else [Event.quitDriver]) := by
  cases c <;> simp

/-! The claims. -/

/-- C3: for every operation argument whose value is not `"in"` or `"out"`,
argument parsing fails (`SystemExit` from argparse, modelled as
`MainResult.parseExit`) and the event trace is empty — no driver setup,
navigation, login or clicking has occurred. -/
theorem cli_rejects_invalid_operation (w : World) (op envFile : String)
    (dryRun : Bool) (hop : validOperation op = false) :
    main w op envFile dryRun = (MainResult.parseExit, []) := by
  simp [main, hop]

/-- Witness for `cli_rejects_invalid_operation` at the concrete argument
`"up"`. -/
theorem cli_rejects_invalid_operation_witness :
    validOperation "up" = false ∧
    main worldAllOk "up" ".env" false = (MainResult.parseExit, []) :=
  ⟨by decide,
   cli_rejects_invalid_operation worldAllOk "up" ".env" false (by decide)⟩

/-- C8: `setup_driver` tries its three strategies in priority order
(webdriver-manager, then version-detect-and-download, then the fixed local
path), returns a handle produced by the first strategy that succeeds,
returns `none` exactly when all three failed, and the trace lists the
attempted strategies in priority order, stopping at the first success.
Every strategy's exception is caught: the embedding is a total function, so
no exception propagates. -/
theorem setup_driver_strategy_order (w : World) :
    ((setup_driver w).1 = none ↔
      w.wdmOk = false ∧ manualOk w = false ∧ w.systemOk = false) ∧
    ((setup_driver w).1 =
      if w.wdmOk then some ⟨Strategy.wdm⟩
      else if manualOk w then some ⟨Strategy.manual⟩
      else if w.systemOk then some ⟨Strategy.system⟩
      else none) ∧
    (((setup_driver w).2).filterMap attemptedStrategy =
      Strategy.wdm ::
        if w.wdmOk then []
        else Strategy.manual ::
          if manualOk w then [] else [Strategy.system]) := by
  cases h1 : w.wdmOk <;> cases h2 : manualOk w <;> cases h3 : w.systemOk <;>
    simp [setup_driver, attemptedStrategy, h1, h2, h3]

/-- C9: `perform_clock_operation` selects the clock-in selector list exactly
when `operation_type.lower()` equals `"in"`; every other operation type
string (for example `"foo"`, or `"OUT"`) selects the clock-out list, with no
rejection of unknown operation types at this interface. -/
theorem operation_type_selector_choice (op : String) :
    (selectorsFor op = selectors_in ↔ pyLower op = "in") ∧
    (pyLower op ≠ "in" → selectorsFor op = selectors_out) := by
  have hne : selectors_out ≠ selectors_in := by decide
  by_cases h : pyLower op = "in" <;> simp [selectorsFor, h, hne]

/-- Witness for `operation_type_selector_choice` at the concrete operation
types `"OUT"` and `"foo"`. -/
theorem operation_type_selector_choice_witness :
    pyLower "OUT" ≠ "in" ∧ selectorsFor "OUT" = selectors_out ∧
    pyLower "foo" ≠ "in" ∧ selectorsFor "foo" = selectors_out :=
  ⟨by decide, (operation_type_selector_choice "OUT").2 (by decide),
   by decide, (operation_type_selector_choice "foo").2 (by decide)⟩

/-- C2: whenever `setup_driver` returns a live driver,
`perform_clock_operation` calls `driver.quit()` exactly once, on every exit
path (success, login failure, button not found, screenshot exception), and a
raising `driver.quit()` neither propagates nor changes the function's
result: the embedding is total and independent of the `quitRaises` oracle
component. -/
theorem driver_released_exactly_once (w : World) (auto : ClockAutomation)
    (op : String) (d : Driver) (h : (setup_driver w).1 = some d) :
    ((perform_clock_operation w auto op).2).count Event.quitDriver = 1 ∧
    ∀ b : Bool, perform_clock_operation { w with quitRaises := b } auto op =
      perform_clock_operation w auto op := by
  constructor
  · rw [perform_eq_of_setup_some w auto op d h]
    simp [List.count_append, List.count_eq_zero.mpr (setup_no_quit w),
      clockBody_quit_count]
  · intro b
    exact perform_quitRaises_irrel w auto op b

/-- Witness for `driver_released_exactly_once` on a world where the first
strategy yields a driver and the operation succeeds. -/
theorem driver_released_exactly_once_witness :
    (setup_driver worldAllOk).1 = some ⟨Strategy.wdm⟩ ∧
    ((perform_clock_operation worldAllOk (ClockAutomation.init worldAllOk)
      "in").2).count Event.quitDriver = 1 :=
  ⟨rfl, (driver_released_exactly_once worldAllOk
    (ClockAutomation.init worldAllOk) "in" ⟨Strategy.wdm⟩ rfl).1⟩

/-- C1 counterexample: the claim says a dry-run failure of driver setup or
of login is reported as a failing exit status, but `main`'s dry-run branch
returns `0` unconditionally.  In `worldLoginPage` login fails (the URL after
submission still contains the login marker) and in `worldNoDriver` driver
setup fails, yet both dry runs exit with code 0. -/
theorem dry_run_failure_exit_counterexample :
    (login worldLoginPage (ClockAutomation.init worldLoginPage)).1 = false ∧
    (main worldLoginPage "in" ".env" true).1 = MainResult.code 0 ∧
    (setup_driver worldNoDriver).1 = none ∧
    (main worldNoDriver "in" ".env" true).1 = MainResult.code 0 := by
  refine ⟨?_, ?_, ?_, ?_⟩ <;> decide

/-- C1 (amended): in normal (non-dry-run) mode `main` returns exit code 0
exactly when `perform_clock_operation` reports success and 1 otherwise; in
dry-run mode `main` returns exit code 0 regardless of driver-setup or login
failure (unless the unguarded final `driver.quit()` raises, in which case
the exception escapes `main`). -/
theorem main_exit_code_spec (w : World) (op envFile : String)
    (hop : validOperation op = true) :
    ((main w op envFile false).1 =
      if (perform_clock_operation w (ClockAutomation.init w) op).1
      then MainResult.code 0 else MainResult.code 1) ∧
    (w.quitRaises = false → (main w op envFile true).1 = MainResult.code 0) := by
  constructor
  · cases hp : (perform_clock_operation w (ClockAutomation.init w) op).1 <;>
      simp [main, hop, hp]
  · intro hq
    cases hs : (setup_driver w).1 with
    | none => simp [main, hop, hs]
    | some d => simp [main, hop, hs, hq]

/-- Witness for `main_exit_code_spec` on the all-success world. -/
theorem main_exit_code_spec_witness :
    validOperation "in" = true ∧ worldAllOk.quitRaises = false ∧
    (main worldAllOk "in" ".env" false).1 = MainResult.code 0 ∧
    (main worldAllOk "in" ".env" true).1 = MainResult.code 0 := by
  refine ⟨by decide, rfl, ?_, ?_⟩
  · rw [(main_exit_code_spec worldAllOk "in" ".env" (by decide)).1]
    decide
  · exact (main_exit_code_spec worldAllOk "in" ".env" (by decide)).2 rfl

/-- C7: in dry-run mode `main` never reaches the button-search or click
logic: its trace is exactly the driver-setup trace followed (when a driver
exists) by the login trace and the final `driver.quit()`, and it contains no
selector probe and no button click. -/
theorem dry_run_no_click_logic (w : World) (op envFile : String)
    (hop : validOperation op = true) :
    ((main w op envFile true).2 =
      (setup_driver w).2 ++
        (if (setup_driver w).1.isSome then
          (login w (ClockAutomation.init w)).2 ++ [Event.quitDriver]
         else [])) ∧
    (∀ s, Event.waitClickable s ∉ (main w op envFile true).2) ∧
    (∀ s, Event.clickButton s ∉ (main w op envFile true).2) := by
  have htr : (main w op envFile true).2 =
      (setup_driver w).2 ++
        (if (setup_driver w).1.isSome then
          (login w (ClockAutomation.init w)).2 ++ [Event.quitDriver]
         else []) := by
    cases hs : (setup_driver w).1 with
    | none => simp [main, hop, hs]
    | some d => cases hq : w.quitRaises <;> simp [main, hop, hs, hq]
  refine ⟨htr, ?_, ?_⟩
  · intro s hmem
    rw [htr] at hmem
    rcases List.mem_append.mp hmem with h | h
    · exact setup_no_wait w s h
    · revert h
      split
      · intro h
        rcases List.mem_append.mp h with h | h
        · exact login_no_wait w _ s h
        · simp at h
      · simp
  · intro s hmem
    rw [htr] at hmem
    rcases List.mem_append.mp hmem with h | h
    · exact setup_no_click w s h
    · revert h
      split
      · intro h
        rcases List.mem_append.mp h with h | h
        · exact login_no_click w _ s h
        · simp at h
      · simp

/-- Witness for `dry_run_no_click_logic` on the all-success world: the
dry-run trace never probes the `#btnClockIn` candidate. -/
theorem dry_run_no_click_logic_witness :
    validOperation "in" = true ∧
    Event.waitClickable "#btnClockIn" ∉ (main worldAllOk "in" ".env" true).2 :=
  ⟨by decide,
   (dry_run_no_click_logic worldAllOk "in" ".env" (by decide)).2.1 "#btnClockIn"⟩

/-- C5: when every login interaction step goes through but the URL after
credential submission still contains a login-page marker (case-insensitive
`"login"` or `"logon"`), `login` returns failure, and
`perform_clock_operation` then returns failure without ever probing a
button-selector candidate. -/
theorem login_marker_failure_no_button_search (w : World)
    (auto : ClockAutomation) (op : String) (d : Driver)
    (hd : (setup_driver w).1 = some d)
    (h1 : w.getOk = true) (h2 : w.shotFails "login_page.png" = false)
    (h3 : w.waitUsernameOk = true) (h4 : w.findPasswordOk = true)
    (h5 : w.findSubmitOk = true) (h6 : w.usernameEntryOk = true)
    (h7 : w.passwordEntryOk = true) (h8 : w.clickSubmitOk = true)
    (h9 : w.shotFails "after_login.png" = false)
    (hurl : urlMarker w.currentUrl = true) :
    (login w auto).1 = false ∧
    (perform_clock_operation w auto op).1 = false ∧
    ∀ s, Event.waitClickable s ∉ (perform_clock_operation w auto op).2 := by
  have hlog : (login w auto).1 = false := by
    simp [login, h1, h2, h3, h4, h5, h6, h7, h8, h9, hurl]
  have hperf := perform_eq_of_setup_some w auto op d hd
  have hbody := clockBody_of_login_false w auto op hlog
  refine ⟨hlog, ?_, ?_⟩
  · rw [hperf, hbody]
  · intro s hmem
    rw [hperf, hbody] at hmem
    rcases List.mem_append.mp hmem with h | h
    · exact setup_no_wait w s h
    · rcases List.mem_append.mp h with h | h
      · exact login_no_wait w auto s h
      · simp at h

/-- Witness for `login_marker_failure_no_button_search` on the world whose
post-submission URL is still the `LogOn` page. -/
theorem login_marker_failure_no_button_search_witness :
    urlMarker worldLoginPage.currentUrl = true ∧
    (login worldLoginPage (ClockAutomation.init worldLoginPage)).1 = false ∧
    (perform_clock_operation worldLoginPage
      (ClockAutomation.init worldLoginPage) "in").1 = false := by
  have h := login_marker_failure_no_button_search worldLoginPage
    (ClockAutomation.init worldLoginPage) "in" ⟨Strategy.wdm⟩
    rfl rfl rfl rfl rfl rfl rfl rfl rfl rfl (by decide)
  exact ⟨by decide, h.1, h.2.1⟩

/-- C6: when no selector candidate of the operation's list yields a
clickable element within its wait window, `perform_clock_operation` returns
failure and has attempted the diagnostic `button_not_found.png` screenshot
before returning. -/
theorem button_not_found_reports_failure (w : World) (auto : ClockAutomation)
    (op : String) (d : Driver)
    (hd : (setup_driver w).1 = some d)
    (hl : (login w auto).1 = true)
    (hall : ∀ s ∈ selectorsFor op,
      w.selOutcome s = SelectorOutcome.waitRaises) :
    (perform_clock_operation w auto op).1 = false ∧
    Event.saveShot "button_not_found.png" ∈
      (perform_clock_operation w auto op).2 := by
  have hb := trySelectors_all_waitRaises w (selectorsFor op) hall
  have hperf := perform_eq_of_setup_some w auto op d hd
  have hbody : (clockBody w auto op).1 = false ∧
      Event.saveShot "button_not_found.png" ∈ (clockBody w auto op).2 := by
    cases hs : w.shotFails "button_not_found.png" <;>
      simp [clockBody, hl, hb, hs]
  constructor
  · rw [hperf]
    exact hbody.1
  · rw [hperf]
    exact List.mem_append.mpr (Or.inr hbody.2)

/-- Witness for `button_not_found_reports_failure` on the world where every
selector probe times out. -/
theorem button_not_found_reports_failure_witness :
    (login worldNoButton (ClockAutomation.init worldNoButton)).1 = true ∧
    (perform_clock_operation worldNoButton
      (ClockAutomation.init worldNoButton) "out").1 = false ∧
    Event.saveShot "button_not_found.png" ∈
      (perform_clock_operation worldNoButton
        (ClockAutomation.init worldNoButton) "out").2 := by
  have h := button_not_found_reports_failure worldNoButton
    (ClockAutomation.init worldNoButton) "out" ⟨Strategy.wdm⟩
    rfl (by decide) (by decide)
  exact ⟨by decide, h.1, h.2⟩

/-- C10: when the `button_not_found.png` screenshot itself raises, the
surrounding handler catches the exception, attempts the best-effort
`operation_error.png` screenshot, and `perform_clock_operation` still
returns failure — nothing propagates (the embedding returns a plain
boolean). -/
theorem screenshot_failure_still_returns_false (w : World)
    (auto : ClockAutomation) (op : String) (d : Driver)
    (hd : (setup_driver w).1 = some d)
    (hl : (login w auto).1 = true)
    (hall : ∀ s ∈ selectorsFor op,
      w.selOutcome s = SelectorOutcome.waitRaises)
    (hshot : w.shotFails "button_not_found.png" = true) :
    (perform_clock_operation w auto op).1 = false ∧
    Event.saveShot "operation_error.png" ∈
      (perform_clock_operation w auto op).2 := by
  have hb := trySelectors_all_waitRaises w (selectorsFor op) hall
  have hperf := perform_eq_of_setup_some w auto op d hd
  have hbody : (clockBody w auto op).1 = false ∧
      Event.saveShot "operation_error.png" ∈ (clockBody w auto op).2 := by
    simp [clockBody, hl, hb, hshot]
  constructor
  · rw [hperf]
    exact hbody.1
  · rw [hperf]
    exact List.mem_append.mpr (Or.inr hbody.2)

/-- Witness for `screenshot_failure_still_returns_false` on the world where
the diagnostic screenshot raises. -/
theorem screenshot_failure_still_returns_false_witness :
    worldShotCrash.shotFails "button_not_found.png" = true ∧
    (perform_clock_operation worldShotCrash
      (ClockAutomation.init worldShotCrash) "in").1 = false ∧
    Event.saveShot "operation_error.png" ∈
      (perform_clock_operation worldShotCrash
        (ClockAutomation.init worldShotCrash) "in").2 := by
  have h := screenshot_failure_still_returns_false worldShotCrash
    (ClockAutomation.init worldShotCrash) "in" ⟨Strategy.wdm⟩
    rfl (by decide) (by decide) (by decide)
  exact ⟨by decide, h.1, h.2⟩

/-- C4: when the first `n` selector candidates time out and the `(n+1)`-th
(index `n`) yields a visible clickable element, `perform_clock_operation`
clicks exactly that candidate's element exactly once, every click in the
trace is on that candidate, and no candidate after it is ever probed. -/
theorem first_successful_selector_clicked (w : World) (auto : ClockAutomation)
    (op : String) (d : Driver) (n : Nat)
    (hd : (setup_driver w).1 = some d)
    (hl : (login w auto).1 = true)
    (hn : n < (selectorsFor op).length)
    (hfail : ∀ i, i < n →
      w.selOutcome ((selectorsFor op).getD i "") = SelectorOutcome.waitRaises)
    (hsucc : w.selOutcome ((selectorsFor op).getD n "") =
      SelectorOutcome.found true false) :
    ((perform_clock_operation w auto op).2).count
        (Event.clickButton ((selectorsFor op).getD n "")) = 1 ∧
    (∀ s, Event.clickButton s ∈ (perform_clock_operation w auto op).2 →
      s = (selectorsFor op).getD n "") ∧
    (∀ i, n < i → i < (selectorsFor op).length →
      Event.waitClickable ((selectorsFor op).getD i "") ∉
        (perform_clock_operation w auto op).2) := by
  have hb := trySelectors_first_success w (selectorsFor op) n hn hfail hsucc
  have hptrace : (perform_clock_operation w auto op).2 =
      (setup_driver w).2 ++ (clockBody w auto op).2 := by
    rw [perform_eq_of_setup_some w auto op d hd]
  have hbody : (clockBody w auto op).2 =
      (login w auto).2 ++
      ((selectorsFor op).take n).map Event.waitClickable ++
      [Event.waitClickable ((selectorsFor op).getD n ""),
       Event.clickButton ((selectorsFor op).getD n ""),
       Event.saveShot "after_operation.png"] ++
      (if w.shotFails "after_operation.png" then
        [Event.saveShot "operation_error.png", Event.quitDriver]
       else [Event.quitDriver]) := by
    cases hs : w.shotFails "after_operation.png" <;>
      simp [clockBody, hl, hb, hs]
  refine ⟨?_, ?_, ?_⟩
  · rw [hptrace, hbody]
    simp [List.count_append, List.count_cons,
      List.count_eq_zero.mpr (setup_no_click w _),
      List.count_eq_zero.mpr (login_no_click w auto _),
      List.count_eq_zero.mpr (click_not_in_opTail _ _),
      count_click_in_waitMap]
    rw [← List.map_take]
    exact count_click_in_waitMap _ _
  · intro s hmem
    rw [hptrace, hbody] at hmem
    rcases List.mem_append.mp hmem with h | h
    · exact absurd h (setup_no_click w s)
    · rcases List.mem_append.mp h with h | h
      · rcases List.mem_append.mp h with h | h
        · rcases List.mem_append.mp h with h | h
          · exact absurd h (login_no_click w auto s)
          · rcases List.mem_map.mp h with ⟨a, _, ha⟩
            exact absurd ha (by simp)
        · simp only [List.mem_cons, List.not_mem_nil, or_false] at h
          rcases h with h | h | h
          · exact absurd h (by simp)
          · exact (Event.clickButton.injEq _ _).mp h
          · exact absurd h (by simp)
      · exact absurd h (click_not_in_opTail _ s)
  · intro i hni hilen hmem
    rw [hptrace, hbody] at hmem
    have hne : (selectorsFor op).getD i "" ≠ (selectorsFor op).getD n "" := by
      intro he
      exact absurd (getD_inj_of_nodup (selectorsFor op) (selectorsFor_nodup op)
        i n hilen hn he) (Nat.ne_of_gt hni)
    rcases List.mem_append.mp hmem with h | h
    · exact setup_no_wait w _ h
    · rcases List.mem_append.mp h with h | h
      · rcases List.mem_append.mp h with h | h
        · rcases List.mem_append.mp h with h | h
          · exact login_no_wait w auto _ h
          · rcases List.mem_map.mp h with ⟨a, hat, ha⟩
            have ha' : a = (selectorsFor op).getD i "" :=
              (Event.waitClickable.injEq _ _).mp ha
            rcases mem_take_getD (selectorsFor op) n a hat with ⟨j, hj1, hj2, hj3⟩
            have : j = i := getD_inj_of_nodup (selectorsFor op)
              (selectorsFor_nodup op) j i hj2 hilen (hj3.trans ha')
            exact absurd (this ▸ hj1) (Nat.lt_asymm hni)
        · simp only [List.mem_cons, List.not_mem_nil, or_false] at h
          rcases h with h | h | h
          · exact hne ((Event.waitClickable.injEq _ _).mp h)
          · exact absurd h (by simp)
          · exact absurd h (by simp)
      · exact wait_not_in_opTail _ _ h

/-- Witness for `first_successful_selector_clicked` on the world where the
first clock-in candidate times out and the second is clickable (`n = 1`). -/
theorem first_successful_selector_clicked_witness :
    (1 < (selectorsFor "in").length ∧
      worldSecondSelector.selOutcome ((selectorsFor "in").getD 1 "") =
        SelectorOutcome.found true false) ∧
    ((perform_clock_operation worldSecondSelector
        (ClockAutomation.init worldSecondSelector) "in").2).count
      (Event.clickButton ((selectorsFor "in").getD 1 "")) = 1 :=
  ⟨⟨by decide, by decide⟩,
   (first_successful_selector_clicked worldSecondSelector
     (ClockAutomation.init worldSecondSelector) "in" ⟨Strategy.wdm⟩ 1
     rfl (by decide) (by decide) (by decide) (by decide)).1⟩

end ClockAutomationModel
